import Mathlib

/-!
# Medical-mission ID scanner UI (`src/ui.c`): capture/OCR state machine and navigation

Shallow embedding of the event handlers of `ui.c` over an explicit UI state.

* The file-scope statics of `ui.c` (`app_state`, the widget handles, `current_screen`)
  become the fields of the record `UI`; every handler is a function on `UI`.
* A toolkit object (`lv_obj_t`) is modelled by the attributes the handlers read or write:
  the state bits `LV_STATE_CHECKED` / `LV_STATE_DISABLED`, the flags `LV_OBJ_FLAG_HIDDEN`,
  `LV_OBJ_FLAG_USER_1`, `LV_OBJ_FLAG_USER_2`, the label text, the bar value and the
  background colour.
* The handles `lbl_phid`, `lbl_dob` and `lbl_sex` are declared (lines 44-46) and written
  (lines 119-121, 149) but no statement of `ui_init` (lines 202-419) creates them: a C
  static without initialiser is a null pointer.  They are `Option lv_obj_t`, `none` being
  the null pointer, and a toolkit call on a null handle has no result, so the handlers
  return `Option UI`.
* The pending timers created by `lv_timer_create(ocr_timer_cb, 1500, NULL)` are the list
  `timers` of their periods.
-/

namespace Ui

/-- Application state enumeration `ui_state_t` (ui.c lines 55-62). -/
inductive ui_state_t
  | IDLE
  | CAMERA_READY
  | CAPTURING
  | OCR_RUNNING
  | OCR_DONE
  | VAL_ERROR
deriving DecidableEq, Repr

/-- Toolkit state bits used by `ui.c`. `LV_STATE_DEFAULT` is the empty mask. -/
inductive lv_state_t
  | LV_STATE_DEFAULT
  | LV_STATE_CHECKED
  | LV_STATE_DISABLED
deriving DecidableEq, Repr

/-- Toolkit object flags used by `ui.c`. -/
inductive lv_obj_flag_t
  | LV_OBJ_FLAG_HIDDEN
  | LV_OBJ_FLAG_USER_1
  | LV_OBJ_FLAG_USER_2
deriving DecidableEq, Repr

/-- Palette colours passed to `lv_palette_main` in the handlers; `LV_PALETTE_NONE` when no
background colour has been given. -/
inductive lv_palette_t
  | LV_PALETTE_NONE
  | LV_PALETTE_GREY
  | LV_PALETTE_GREEN
  | LV_PALETTE_ORANGE
deriving DecidableEq, Repr

/-- Attributes of a toolkit object that the handlers of `ui.c` read or write. -/
structure lv_obj_t where
  checked : Bool
  disabled : Bool
  hidden : Bool
  user_1 : Bool
  user_2 : Bool
  text : String
  value : Int
  bg_color : lv_palette_t
deriving DecidableEq, Repr

/-- Toolkit call `lv_obj_add_state(obj, state)`. -/
def lv_obj_add_state (o : lv_obj_t) : lv_state_t → lv_obj_t
  | .LV_STATE_DEFAULT => o
  | .LV_STATE_CHECKED => { o with checked := true }
  | .LV_STATE_DISABLED => { o with disabled := true }

/-- Toolkit call `lv_obj_clear_state(obj, state)`. -/
def lv_obj_clear_state (o : lv_obj_t) : lv_state_t → lv_obj_t
  | .LV_STATE_DEFAULT => o
  | .LV_STATE_CHECKED => { o with checked := false }
  | .LV_STATE_DISABLED => { o with disabled := false }

/-- Toolkit call `lv_obj_has_state(obj, state)`: some bit of the mask is set. -/
def lv_obj_has_state (o : lv_obj_t) : lv_state_t → Bool
  | .LV_STATE_DEFAULT => false
  | .LV_STATE_CHECKED => o.checked
  | .LV_STATE_DISABLED => o.disabled

/-- Toolkit call `lv_obj_add_flag(obj, f)`. -/
def lv_obj_add_flag (o : lv_obj_t) : lv_obj_flag_t → lv_obj_t
  | .LV_OBJ_FLAG_HIDDEN => { o with hidden := true }
  | .LV_OBJ_FLAG_USER_1 => { o with user_1 := true }
  | .LV_OBJ_FLAG_USER_2 => { o with user_2 := true }

/-- Toolkit call `lv_obj_clear_flag(obj, f)`. -/
def lv_obj_clear_flag (o : lv_obj_t) : lv_obj_flag_t → lv_obj_t
  | .LV_OBJ_FLAG_HIDDEN => { o with hidden := false }
  | .LV_OBJ_FLAG_USER_1 => { o with user_1 := false }
  | .LV_OBJ_FLAG_USER_2 => { o with user_2 := false }

/-- Toolkit call `lv_obj_has_flag(obj, f)`. -/
def lv_obj_has_flag (o : lv_obj_t) : lv_obj_flag_t → Bool
  | .LV_OBJ_FLAG_HIDDEN => o.hidden
  | .LV_OBJ_FLAG_USER_1 => o.user_1
  | .LV_OBJ_FLAG_USER_2 => o.user_2

/-- Toolkit call `lv_label_set_text(obj, text)`. -/
def lv_label_set_text (o : lv_obj_t) (text : String) : lv_obj_t :=
  { o with text := text }

/-- Toolkit call `lv_bar_set_value(obj, value, anim)`: the bar holds `value` (the two
values used, 92 and 0, lie in the default range 0..100; the animation flag only affects
drawing). -/
def lv_bar_set_value (o : lv_obj_t) (value : Int) : lv_obj_t :=
  { o with value := value }

/-- Toolkit call `lv_obj_set_style_bg_color(obj, lv_palette_main(p), 0)`. -/
def lv_obj_set_style_bg_color (o : lv_obj_t) (p : lv_palette_t) : lv_obj_t :=
  { o with bg_color := p }

/-- Toolkit call `lv_timer_create(ocr_timer_cb, period, NULL)` on the list of pending
timers. -/
def lv_timer_create (timers : List Nat) (period : Nat) : List Nat :=
  timers ++ [period]

/-- Toolkit call `lv_timer_del(timer)` for the timer that fired: the oldest pending one
(all timers of `ui.c` have the same period and callback). -/
def lv_timer_del (timers : List Nat) : List Nat :=
  timers.drop 1

/-- The three content panels a navigation button can point to (`nav_scrs`, line 268). -/
inductive screen_ref
  | scr_scan
  | scr_fields
  | scr_settings
deriving DecidableEq, Repr

/-- The file-scope state of `ui.c` (lines 24-64) that the handlers use. -/
structure UI where
  app_state : ui_state_t
  scr_scan : lv_obj_t
  scr_fields : lv_obj_t
  scr_settings : lv_obj_t
  current_screen : Option screen_ref
  chip_cam : lv_obj_t
  chip_ocr : lv_obj_t
  btn_capture : lv_obj_t
  sw_cam_ready : lv_obj_t
  spinner_ocr : lv_obj_t
  box_overlay : lv_obj_t
  lbl_name : lv_obj_t
  lbl_phid : Option lv_obj_t
  lbl_dob : Option lv_obj_t
  lbl_sex : Option lv_obj_t
  bar_conf : lv_obj_t
  lbl_conf_pct : lv_obj_t
  timers : List Nat
deriving DecidableEq, Repr

/-- Render function `update_state_ui` (ui.c lines 90-127), one binding per statement.
The three writes through `lbl_phid`, `lbl_dob`, `lbl_sex` need a non-null handle. -/
def update_state_ui (s : UI) : Option UI :=
  match s.app_state with
  | .IDLE =>
    let s := { s with btn_capture := lv_obj_add_state s.btn_capture .LV_STATE_DISABLED }
    let s := { s with chip_cam := lv_label_set_text s.chip_cam "CAM: IDLE" }
    let s := { s with chip_cam := lv_obj_set_style_bg_color s.chip_cam .LV_PALETTE_GREY }
    let s := { s with spinner_ocr := lv_obj_add_flag s.spinner_ocr .LV_OBJ_FLAG_HIDDEN }
    let s := { s with box_overlay := lv_obj_add_flag s.box_overlay .LV_OBJ_FLAG_HIDDEN }
    some s
  | .CAMERA_READY =>
    let s := { s with btn_capture := lv_obj_clear_state s.btn_capture .LV_STATE_DISABLED }
    let s := { s with chip_cam := lv_label_set_text s.chip_cam "CAM: READY" }
    let s := { s with chip_cam := lv_obj_set_style_bg_color s.chip_cam .LV_PALETTE_GREEN }
    let s := { s with spinner_ocr := lv_obj_add_flag s.spinner_ocr .LV_OBJ_FLAG_HIDDEN }
    let s := { s with box_overlay := lv_obj_add_flag s.box_overlay .LV_OBJ_FLAG_HIDDEN }
    some s
  | .OCR_RUNNING =>
    let s := { s with chip_ocr := lv_label_set_text s.chip_ocr "OCR: RUNNING" }
    let s := { s with chip_ocr := lv_obj_set_style_bg_color s.chip_ocr .LV_PALETTE_ORANGE }
    let s := { s with spinner_ocr := lv_obj_clear_flag s.spinner_ocr .LV_OBJ_FLAG_HIDDEN }
    some s
  | .OCR_DONE =>
    let s := { s with chip_ocr := lv_label_set_text s.chip_ocr "OCR: DONE" }
    let s := { s with chip_ocr := lv_obj_set_style_bg_color s.chip_ocr .LV_PALETTE_GREEN }
    let s := { s with spinner_ocr := lv_obj_add_flag s.spinner_ocr .LV_OBJ_FLAG_HIDDEN }
    let s := { s with box_overlay := lv_obj_clear_flag s.box_overlay .LV_OBJ_FLAG_HIDDEN }
    let s := { s with lbl_name := lv_label_set_text s.lbl_name "DELA CRUZ, JUAN P." }
    match s.lbl_phid with
    | none => none
    | some phid =>
    let s := { s with lbl_phid := some (lv_label_set_text phid "12-345678901-2") }
    match s.lbl_dob with
    | none => none
    | some dob =>
    let s := { s with lbl_dob := some (lv_label_set_text dob "1985-05-20") }
    match s.lbl_sex with
    | none => none
    | some sex =>
    let s := { s with lbl_sex := some (lv_label_set_text sex "MALE") }
    let s := { s with bar_conf := lv_bar_set_value s.bar_conf 92 }
    let s := { s with lbl_conf_pct := lv_label_set_text s.lbl_conf_pct "92%" }
    some s
  | _ => some s

/-- Timer callback `ocr_timer_cb` (ui.c lines 131-135). -/
def ocr_timer_cb (s : UI) : Option UI :=
  let s := { s with app_state := .OCR_DONE }
  match update_state_ui s with
  | none => none
  | some s => some { s with timers := lv_timer_del s.timers }

/-- Target of a click event as `btn_event_cb` sees it: the capture button itself
(`btn == btn_capture`) or another object, of which only the flags are read. -/
inductive event_target
  | btn_capture
  | other (btn : lv_obj_t)
deriving DecidableEq, Repr

/-- Click handler `btn_event_cb` (ui.c lines 137-158).  `lv_btn_set_state` is a toolkit call
that the LVGL 8 headers named by `ui.h` do not declare; its effect on the object it is given
is a parameter. -/
def btn_event_cb (lv_btn_set_state : lv_obj_t → lv_state_t → lv_obj_t)
    (btn : event_target) (s : UI) : Option UI :=
  match btn with
  | .btn_capture =>
    let s := { s with app_state := .OCR_RUNNING }
    match update_state_ui s with
    | none => none
    | some s => some { s with timers := lv_timer_create s.timers 1500 }
  | .other b =>
    if lv_obj_has_flag b .LV_OBJ_FLAG_USER_1 then
      let s := { s with app_state := .CAMERA_READY }
      match update_state_ui s with
      | none => none
      | some s =>
      let s := { s with lbl_name := lv_label_set_text s.lbl_name "-" }
      match s.lbl_phid with
      | none => none
      | some phid =>
      let s := { s with lbl_phid := some (lv_label_set_text phid "-") }
      let s := { s with bar_conf := lv_bar_set_value s.bar_conf 0 }
      let s := { s with lbl_conf_pct := lv_label_set_text s.lbl_conf_pct "0%" }
      some s
    else if lv_obj_has_flag b .LV_OBJ_FLAG_USER_2 then
      let s := { s with app_state := .IDLE }
      let s := { s with sw_cam_ready := lv_btn_set_state s.sw_cam_ready .LV_STATE_DEFAULT }
      let s := { s with sw_cam_ready := lv_obj_clear_state s.sw_cam_ready .LV_STATE_CHECKED }
      update_state_ui s
    else
      some s

/-- Panel object behind a screen reference. -/
def screen_obj (s : UI) : screen_ref → lv_obj_t
  | .scr_scan => s.scr_scan
  | .scr_fields => s.scr_fields
  | .scr_settings => s.scr_settings

/-- Store of a panel object behind a screen reference. -/
def set_screen_obj (s : UI) (r : screen_ref) (o : lv_obj_t) : UI :=
  match r with
  | .scr_scan => { s with scr_scan := o }
  | .scr_fields => { s with scr_fields := o }
  | .scr_settings => { s with scr_settings := o }

/-- Navigation handler `nav_event_cb` (ui.c lines 160-165); `target` is the user data the
navigation button was registered with. -/
def nav_event_cb (target : screen_ref) (s : UI) : UI :=
  let s := match s.current_screen with
    | some cur => set_screen_obj s cur (lv_obj_add_flag (screen_obj s cur) .LV_OBJ_FLAG_HIDDEN)
    | none => s
  let s := set_screen_obj s target (lv_obj_clear_flag (screen_obj s target) .LV_OBJ_FLAG_HIDDEN)
  { s with current_screen := some target }

/-- Switch handler `sw_event_cb` (ui.c lines 167-172); it is registered on `sw_cam_ready`
only (line 331), so the event target is that switch. -/
def sw_event_cb (s : UI) : Option UI :=
  let sw := s.sw_cam_ready
  let s := if lv_obj_has_state sw .LV_STATE_CHECKED then { s with app_state := .CAMERA_READY }
           else { s with app_state := .IDLE }
  update_state_ui s

/-- Object as `lv_obj_create`, `lv_btn_create`, `lv_switch_create`, `lv_bar_create` and
`lv_spinner_create` leave it: no state bit, no flag of interest, value 0. -/
def lv_obj_create : lv_obj_t :=
  { checked := false, disabled := false, hidden := false, user_1 := false, user_2 := false,
    text := "", value := 0, bg_color := .LV_PALETTE_NONE }

/-- Label as created by `lv_label_create` followed by `lv_label_set_text`. -/
def lv_label_create (text : String) : lv_obj_t :=
  lv_label_set_text lv_obj_create text

/-- The widgets as the body of `ui_init` builds them (ui.c lines 202-417), before its final
call of `update_state_ui`.  `app_state` has its static initialiser `IDLE` (line 64).  The
chips take the grey background of `style_chip` (lines 194-196, 224, 229).  The result card
receives `lbl_name`, `bar_conf` and `lbl_conf_pct` only (lines 348-358); no statement
assigns `lbl_phid`, `lbl_dob` or `lbl_sex`. -/
def ui_built : UI :=
  { app_state := .IDLE
    scr_scan := lv_obj_create
    scr_fields := lv_obj_add_flag lv_obj_create .LV_OBJ_FLAG_HIDDEN
    scr_settings := lv_obj_add_flag lv_obj_create .LV_OBJ_FLAG_HIDDEN
    current_screen := some .scr_scan
    chip_cam := lv_obj_set_style_bg_color (lv_label_create "CAM: IDLE") .LV_PALETTE_GREY
    chip_ocr := lv_obj_set_style_bg_color (lv_label_create "OCR: IDLE") .LV_PALETTE_GREY
    btn_capture := lv_obj_create
    sw_cam_ready := lv_obj_create
    spinner_ocr := lv_obj_add_flag lv_obj_create .LV_OBJ_FLAG_HIDDEN
    box_overlay := lv_obj_add_flag lv_obj_create .LV_OBJ_FLAG_HIDDEN
    lbl_name := lv_label_create "-"
    lbl_phid := none
    lbl_dob := none
    lbl_sex := none
    bar_conf := lv_obj_create
    lbl_conf_pct := lv_label_create "0%"
    timers := [] }

/-- Initialisation `ui_init` (ui.c lines 202-419): build the widgets, then render. -/
def ui_init : Option UI :=
  update_state_ui ui_built

/-- The events of the capture/OCR state machine. -/
inductive Event
  | CameraToggleOn
  | CameraToggleOff
  | CaptureRequested
  | RetakeRequested
  | ClearRequested
  | OcrCompleted
deriving DecidableEq, Repr

/-- A button carrying `LV_OBJ_FLAG_USER_1` (the Retake button of the comment on line 145). -/
def btn_retake : lv_obj_t :=
  lv_obj_add_flag lv_obj_create .LV_OBJ_FLAG_USER_1

/-- A button carrying `LV_OBJ_FLAG_USER_2` (the Clear button of the comment on line 152). -/
def btn_clear : lv_obj_t :=
  lv_obj_add_flag lv_obj_create .LV_OBJ_FLAG_USER_2

/-- Delivery of one event to its handler.  The toolkit sets or clears `LV_STATE_CHECKED` on
the switch before it sends `LV_EVENT_VALUE_CHANGED` to `sw_event_cb`. -/
def step (lv_btn_set_state : lv_obj_t → lv_state_t → lv_obj_t) (e : Event) (s : UI) :
    Option UI :=
  match e with
  | .CameraToggleOn =>
    sw_event_cb { s with sw_cam_ready := lv_obj_add_state s.sw_cam_ready .LV_STATE_CHECKED }
  | .CameraToggleOff =>
    sw_event_cb { s with sw_cam_ready := lv_obj_clear_state s.sw_cam_ready .LV_STATE_CHECKED }
  | .CaptureRequested => btn_event_cb lv_btn_set_state .btn_capture s
  | .RetakeRequested => btn_event_cb lv_btn_set_state (.other btn_retake) s
  | .ClearRequested => btn_event_cb lv_btn_set_state (.other btn_clear) s
  | .OcrCompleted => ocr_timer_cb s

/-- Delivery of a finite sequence of events, in order; it stops without result as soon as
one handler has none. -/
def run (lv_btn_set_state : lv_obj_t → lv_state_t → lv_obj_t) : List Event → UI → Option UI
  | [], s => some s
  | e :: es, s =>
    match step lv_btn_set_state e s with
    | none => none
    | some s => run lv_btn_set_state es s

/-- Event sequence delivered to the state left by `ui_init`. -/
def run_from_init (lv_btn_set_state : lv_obj_t → lv_state_t → lv_obj_t) (es : List Event) :
    Option UI :=
  match ui_init with
  | none => none
  | some s => run lv_btn_set_state es s

/-- A sequence of navigation clicks, in order. -/
def navigate : List screen_ref → UI → UI
  | [], s => s
  | t :: ts, s => navigate ts (nav_event_cb t s)

/-- One reading of `lv_btn_set_state(obj, LV_STATE_DEFAULT)`, that of the LVGL 7 button API:
the released state, neither checked nor disabled.  Used only to evaluate examples. -/
def lv_btn_set_state_released (o : lv_obj_t) (_ : lv_state_t) : lv_obj_t :=
  lv_obj_clear_state (lv_obj_clear_state o .LV_STATE_CHECKED) .LV_STATE_DISABLED

/-- A UI state with `app_state` `OCR_DONE` that shows the canned record: camera-ready
switch checked, capture button enabled, both chips green, overlay shown, name label,
confidence bar and confidence label as the render of `OCR_DONE` writes them. -/
def ocr_done_record_shown : UI :=
  { app_state := .OCR_DONE
    scr_scan := lv_obj_create
    scr_fields := lv_obj_add_flag lv_obj_create .LV_OBJ_FLAG_HIDDEN
    scr_settings := lv_obj_add_flag lv_obj_create .LV_OBJ_FLAG_HIDDEN
    current_screen := some .scr_scan
    chip_cam := lv_obj_set_style_bg_color (lv_label_create "CAM: READY") .LV_PALETTE_GREEN
    chip_ocr := lv_obj_set_style_bg_color (lv_label_create "OCR: DONE") .LV_PALETTE_GREEN
    btn_capture := lv_obj_create
    sw_cam_ready := lv_obj_add_state lv_obj_create .LV_STATE_CHECKED
    spinner_ocr := lv_obj_add_flag lv_obj_create .LV_OBJ_FLAG_HIDDEN
    box_overlay := lv_obj_create
    lbl_name := lv_label_create "DELA CRUZ, JUAN P."
    lbl_phid := none
    lbl_dob := none
    lbl_sex := none
    bar_conf := lv_bar_set_value lv_obj_create 92
    lbl_conf_pct := lv_label_create "92%"
    timers := [] }

/-- Exactly one panel is shown and it is the one `current_screen` records. -/
def one_panel_shown (s : UI) : Prop :=
  ∀ r : screen_ref,
    lv_obj_has_flag (screen_obj s r) .LV_OBJ_FLAG_HIDDEN = false ↔ s.current_screen = some r

/-- The state left by `ui_init`, written out. -/
def ui_ready : UI :=
  { ui_built with btn_capture := lv_obj_add_state lv_obj_create .LV_STATE_DISABLED }

/-- Relation between `app_state` and the capture button that every render establishes. -/
def button_follows_state (s : UI) : Prop :=
  (s.app_state = .CAMERA_READY → lv_obj_has_state s.btn_capture .LV_STATE_DISABLED = false) ∧
  (s.app_state = .IDLE → lv_obj_has_state s.btn_capture .LV_STATE_DISABLED = true)

/-- The four values of `app_state` that some handler assigns. -/
def assigned_state (a : ui_state_t) : Prop :=
  a = .IDLE ∨ a = .CAMERA_READY ∨ a = .OCR_RUNNING ∨ a = .OCR_DONE

/-! ## Shared lemmas -/

theorem ui_init_eq : ui_init = some ui_ready := by
  decide

theorem update_state_ui_app_state (s s' : UI) (h : update_state_ui s = some s') :
    s'.app_state = s.app_state := by
  unfold update_state_ui at h
  split at h
  · simp at h; subst h; rfl
  · simp at h; subst h; rfl
  · simp at h; subst h; rfl
  · simp only at h
    split at h
    · simp at h
    · split at h
      · simp at h
      · split at h
        · simp at h
        · simp at h; subst h; rfl
  · simp at h; subst h; rfl

theorem update_state_ui_button (s s' : UI) (h : update_state_ui s = some s') :
    button_follows_state s' := by
  unfold update_state_ui at h
  split at h
  · simp at h; subst h
    simp_all [button_follows_state, lv_obj_has_state, lv_obj_add_state]
  · simp at h; subst h
    simp_all [button_follows_state, lv_obj_has_state, lv_obj_clear_state]
  · simp at h; subst h
    simp_all [button_follows_state]
  · simp only at h
    split at h
    · simp at h
    · split at h
      · simp at h
      · split at h
        · simp at h
        · simp at h; subst h
          simp_all [button_follows_state]
  · simp at h; subst h
    simp_all [button_follows_state]

theorem button_follows_state_of_eq (s t : UI) (ha : t.app_state = s.app_state)
    (hb : t.btn_capture = s.btn_capture) (h : button_follows_state s) :
    button_follows_state t := by
  unfold button_follows_state at *
  rw [ha, hb]
  exact h

theorem step_button (f : lv_obj_t → lv_state_t → lv_obj_t) (e : Event) (s s' : UI)
    (h : step f e s = some s') : button_follows_state s' := by
  cases e
  · simp only [step, sw_event_cb] at h
    exact update_state_ui_button _ _ h
  · simp only [step, sw_event_cb] at h
    exact update_state_ui_button _ _ h
  · simp only [step, btn_event_cb] at h
    split at h
    · simp at h
    · next s1 h1 =>
      simp at h; subst h
      exact button_follows_state_of_eq s1 _ rfl rfl (update_state_ui_button _ _ h1)
  · simp only [step, btn_event_cb, btn_retake, lv_obj_has_flag, lv_obj_add_flag,
      lv_obj_create, if_true] at h
    split at h
    · cases h
    · next s1 h1 =>
      split at h
      · cases h
      · simp at h; subst h
        exact button_follows_state_of_eq s1 _ rfl rfl (update_state_ui_button _ _ h1)
  · simp only [step, btn_event_cb, btn_clear, lv_obj_has_flag, lv_obj_add_flag,
      lv_obj_create] at h
    simp at h
    exact update_state_ui_button _ _ h
  · simp only [step, ocr_timer_cb] at h
    split at h
    · simp at h
    · next s1 h1 =>
      simp at h; subst h
      exact button_follows_state_of_eq s1 _ rfl rfl (update_state_ui_button _ _ h1)

theorem run_button (f : lv_obj_t → lv_state_t → lv_obj_t) (es : List Event) :
    ∀ s s' : UI, button_follows_state s → run f es s = some s' → button_follows_state s' := by
  induction es with
  | nil =>
    intro s s' hs h
    simp [run] at h; subst h; exact hs
  | cons e es ih =>
    intro s s' _ h
    simp only [run] at h
    split at h
    · simp at h
    · next s1 h1 => exact ih s1 s' (step_button f e s s1 h1) h

theorem ui_ready_button : button_follows_state ui_ready := by
  unfold button_follows_state
  decide

theorem step_assigned_state (f : lv_obj_t → lv_state_t → lv_obj_t) (e : Event) (s s' : UI)
    (h : step f e s = some s') : assigned_state s'.app_state := by
  unfold assigned_state
  cases e
  · simp only [step, sw_event_cb] at h
    rw [update_state_ui_app_state _ _ h]
    split <;> simp
  · simp only [step, sw_event_cb] at h
    rw [update_state_ui_app_state _ _ h]
    split <;> simp
  · simp only [step, btn_event_cb] at h
    split at h
    · cases h
    · next s1 h1 =>
      simp at h; subst h
      simp [update_state_ui_app_state _ _ h1]
  · simp only [step, btn_event_cb, btn_retake, lv_obj_has_flag, lv_obj_add_flag,
      lv_obj_create, if_true] at h
    split at h
    · cases h
    · next s1 h1 =>
      split at h
      · cases h
      · simp at h; subst h
        simp [update_state_ui_app_state _ _ h1]
  · simp only [step, btn_event_cb, btn_clear, lv_obj_has_flag, lv_obj_add_flag,
      lv_obj_create] at h
    simp at h
    simp [update_state_ui_app_state _ _ h]
  · simp only [step, ocr_timer_cb] at h
    split at h
    · cases h
    · next s1 h1 =>
      simp at h; subst h
      simp [update_state_ui_app_state _ _ h1]

theorem run_assigned_state (f : lv_obj_t → lv_state_t → lv_obj_t) (es : List Event) :
    ∀ s s' : UI, assigned_state s.app_state → run f es s = some s' →
      assigned_state s'.app_state := by
  induction es with
  | nil =>
    intro s s' hs h
    simp [run] at h; subst h; exact hs
  | cons e es ih =>
    intro s s' _ h
    simp only [run] at h
    split at h
    · cases h
    · next s1 h1 => exact ih s1 s' (step_assigned_state f e s s1 h1) h

theorem update_state_ui_phid (s s' : UI) (h : update_state_ui s = some s')
    (hp : s.lbl_phid = none) : s'.lbl_phid = none := by
  cases ha : s.app_state
  case OCR_DONE => simp [update_state_ui, ha, hp] at h
  all_goals
    simp [update_state_ui, ha] at h
    subst h
    simpa using hp

theorem ocr_timer_cb_null_phid (s : UI) (hp : s.lbl_phid = none) : ocr_timer_cb s = none := by
  simp [ocr_timer_cb, update_state_ui, hp]

theorem step_phid (f : lv_obj_t → lv_state_t → lv_obj_t) (e : Event) (s s' : UI)
    (h : step f e s = some s') (hp : s.lbl_phid = none) : s'.lbl_phid = none := by
  cases e
  · simp only [step, sw_event_cb] at h
    refine update_state_ui_phid _ _ h ?_
    split <;> exact hp
  · simp only [step, sw_event_cb] at h
    refine update_state_ui_phid _ _ h ?_
    split <;> exact hp
  · simp only [step, btn_event_cb] at h
    split at h
    · cases h
    · next s1 h1 =>
      simp at h; subst h
      exact update_state_ui_phid _ s1 h1 hp
  · simp only [step, btn_event_cb, btn_retake, lv_obj_has_flag, lv_obj_add_flag,
      lv_obj_create, if_true] at h
    split at h
    · cases h
    · next s1 h1 =>
      have := update_state_ui_phid _ _ h1 hp
      simp [this] at h
  · simp only [step, btn_event_cb, btn_clear, lv_obj_has_flag, lv_obj_add_flag,
      lv_obj_create] at h
    simp at h
    exact update_state_ui_phid _ _ h hp
  · simp only [step] at h
    rw [ocr_timer_cb_null_phid s hp] at h
    cases h

theorem run_phid (f : lv_obj_t → lv_state_t → lv_obj_t) (es : List Event) :
    ∀ s s' : UI, s.lbl_phid = none → run f es s = some s' → s'.lbl_phid = none := by
  induction es with
  | nil =>
    intro s s' hs h
    simp [run] at h; subst h; exact hs
  | cons e es ih =>
    intro s s' hs h
    simp only [run] at h
    split at h
    · cases h
    · next s1 h1 => exact ih s1 s' (step_phid f e s s1 h1 hs) h

theorem update_state_ui_null (s s' : UI) (h : update_state_ui s = some s')
    (hp : s.lbl_phid = none) :
    s.app_state ≠ .OCR_DONE ∧ s'.lbl_name = s.lbl_name ∧ s'.bar_conf = s.bar_conf ∧
      s'.lbl_conf_pct = s.lbl_conf_pct := by
  cases ha : s.app_state
  case OCR_DONE => simp [update_state_ui, ha, hp] at h
  all_goals
    simp [update_state_ui, ha] at h
    subst h
    simp

theorem step_null (f : lv_obj_t → lv_state_t → lv_obj_t) (e : Event) (s s' : UI)
    (h : step f e s = some s') (hp : s.lbl_phid = none) :
    s'.app_state ≠ .OCR_DONE ∧ s'.lbl_name = s.lbl_name ∧ s'.bar_conf = s.bar_conf ∧
      s'.lbl_conf_pct = s.lbl_conf_pct := by
  cases e
  · simp only [step, sw_event_cb] at h
    have hn := update_state_ui_null _ _ h (by split <;> exact hp)
    rw [update_state_ui_app_state _ _ h]
    refine ⟨hn.1, ?_, ?_, ?_⟩
    · rw [hn.2.1]; split <;> rfl
    · rw [hn.2.2.1]; split <;> rfl
    · rw [hn.2.2.2]; split <;> rfl
  · simp only [step, sw_event_cb] at h
    have hn := update_state_ui_null _ _ h (by split <;> exact hp)
    rw [update_state_ui_app_state _ _ h]
    refine ⟨hn.1, ?_, ?_, ?_⟩
    · rw [hn.2.1]; split <;> rfl
    · rw [hn.2.2.1]; split <;> rfl
    · rw [hn.2.2.2]; split <;> rfl
  · simp only [step, btn_event_cb] at h
    split at h
    · cases h
    · next s1 h1 =>
      simp at h; subst h
      have hn := update_state_ui_null _ s1 h1 hp
      have ha := update_state_ui_app_state _ s1 h1
      exact ⟨by simp [ha], hn.2.1, hn.2.2.1, hn.2.2.2⟩
  · simp only [step, btn_event_cb, btn_retake, lv_obj_has_flag, lv_obj_add_flag,
      lv_obj_create, if_true] at h
    split at h
    · cases h
    · next s1 h1 =>
      have := update_state_ui_phid _ _ h1 hp
      simp [this] at h
  · simp only [step, btn_event_cb, btn_clear, lv_obj_has_flag, lv_obj_add_flag,
      lv_obj_create] at h
    simp at h
    have hn := update_state_ui_null _ _ h hp
    have ha := update_state_ui_app_state _ _ h
    exact ⟨by simp [ha], hn.2.1, hn.2.2.1, hn.2.2.2⟩
  · simp only [step] at h
    rw [ocr_timer_cb_null_phid s hp] at h
    cases h

theorem run_null (f : lv_obj_t → lv_state_t → lv_obj_t) (es : List Event) :
    ∀ s s' : UI, s.lbl_phid = none → run f es s = some s' →
      (s'.app_state = .OCR_DONE → s.app_state = .OCR_DONE) ∧ s'.lbl_name = s.lbl_name ∧
        s'.bar_conf = s.bar_conf ∧ s'.lbl_conf_pct = s.lbl_conf_pct := by
  induction es with
  | nil =>
    intro s s' _ h
    simp [run] at h; subst h; simp
  | cons e es ih =>
    intro s s' hs h
    simp only [run] at h
    split at h
    · cases h
    · next s1 h1 =>
      have h2 := step_null f e s s1 h1 hs
      have h3 := ih s1 s' (step_phid f e s s1 h1 hs) h
      refine ⟨fun hd => absurd (h3.1 hd) h2.1, ?_, ?_, ?_⟩
      · rw [h3.2.1, h2.2.1]
      · rw [h3.2.2.1, h2.2.2.1]
      · rw [h3.2.2.2, h2.2.2.2]

/-- C1, counterexample: from the state left by `ui_init`, the events CameraToggleOn,
CaptureRequested lead to a state in which the capture button is enabled although
`app_state` is `OCR_RUNNING`, not `CAMERA_READY`. -/
theorem capture_enabled_in_ocr_running :
    ∃ s, run_from_init lv_btn_set_state_released [.CameraToggleOn, .CaptureRequested] = some s ∧
      lv_obj_has_state s.btn_capture .LV_STATE_DISABLED = false ∧
      s.app_state = .OCR_RUNNING ∧ s.app_state ≠ .CAMERA_READY :=
  ⟨_, rfl, by decide⟩

/-- C1, amended: in every state reached from the state left by `ui_init` by a finite
sequence of the six events, the capture button is enabled whenever `app_state` is
`CAMERA_READY` and disabled whenever `app_state` is `IDLE`. -/
theorem capture_button_follows_state (f : lv_obj_t → lv_state_t → lv_obj_t)
    (es : List Event) (s : UI) (h : run_from_init f es = some s) :
    (s.app_state = .CAMERA_READY → lv_obj_has_state s.btn_capture .LV_STATE_DISABLED = false) ∧
    (s.app_state = .IDLE → lv_obj_has_state s.btn_capture .LV_STATE_DISABLED = true) := by
  unfold run_from_init at h
  rw [ui_init_eq] at h
  exact run_button f es ui_ready s ui_ready_button h

/-- C1, witness: the amended statement at the sequence CameraToggleOn, CameraToggleOff,
CameraToggleOn. -/
theorem capture_button_follows_state_witness :
    ∃ s, run_from_init lv_btn_set_state_released
        [.CameraToggleOn, .CameraToggleOff, .CameraToggleOn] = some s ∧
      s.app_state = .CAMERA_READY ∧
      lv_obj_has_state s.btn_capture .LV_STATE_DISABLED = false :=
  ⟨_, rfl, rfl, (capture_button_follows_state lv_btn_set_state_released
    [.CameraToggleOn, .CameraToggleOff, .CameraToggleOn] _ rfl).1 rfl⟩

/-! ## C2: CaptureRequested has no state guard -/

/-- C2, counterexample: in the state left by `ui_init` (`app_state` is `IDLE`) the click
handler on the capture button changes `app_state` to `OCR_RUNNING`, shows the spinner and
schedules a timer; and in the `OCR_RUNNING` state reached by CameraToggleOn,
CaptureRequested it schedules a second timer. -/
theorem capture_outside_camera_ready_not_noop :
    ui_init = some ui_ready ∧ ui_ready.app_state = .IDLE ∧
    (∃ s, btn_event_cb lv_btn_set_state_released .btn_capture ui_ready = some s ∧
      s.app_state = .OCR_RUNNING ∧ s.timers = [1500] ∧
      lv_obj_has_flag s.spinner_ocr .LV_OBJ_FLAG_HIDDEN = false ∧
      lv_obj_has_flag ui_ready.spinner_ocr .LV_OBJ_FLAG_HIDDEN = true) ∧
    (∃ s s', run_from_init lv_btn_set_state_released
        [.CameraToggleOn, .CaptureRequested] = some s ∧
      s.app_state = .OCR_RUNNING ∧ s.timers = [1500] ∧
      btn_event_cb lv_btn_set_state_released .btn_capture s = some s' ∧
      s'.timers = [1500, 1500]) :=
  ⟨by decide, rfl, ⟨_, rfl, by decide⟩, ⟨_, _, rfl, rfl, rfl, rfl, by decide⟩⟩

/-- C2, amended: for every UI state, whatever its `app_state`, the click handler on the
capture button sets `app_state` to `OCR_RUNNING`, renders that state (OCR chip
"OCR: RUNNING" in orange, spinner shown) and schedules one more 1500 ms completion timer;
nothing else changes. -/
theorem capture_unguarded (f : lv_obj_t → lv_state_t → lv_obj_t) (s : UI) :
    btn_event_cb f .btn_capture s = some
      { s with
        app_state := .OCR_RUNNING
        chip_ocr := lv_obj_set_style_bg_color (lv_label_set_text s.chip_ocr "OCR: RUNNING")
          .LV_PALETTE_ORANGE
        spinner_ocr := lv_obj_clear_flag s.spinner_ocr .LV_OBJ_FLAG_HIDDEN
        timers := s.timers ++ [1500] } := by
  simp [btn_event_cb, update_state_ui, lv_timer_create]

/-! ## C3: CameraToggleOn, CaptureRequested, OcrCompleted from the initial state -/

/-- C3: from the state left by `ui_init` the events CameraToggleOn, CaptureRequested lead
to `OCR_RUNNING` with one pending 1500 ms timer, the handle `lbl_phid` still null and
the confidence bar at 0; the event OcrCompleted then has no resulting state, because the
render of `OCR_DONE` writes through `lbl_phid` (line 119) before it sets the bar to 92
(line 122). -/
theorem ocr_completion_after_init_has_no_result :
    (∃ s, run_from_init lv_btn_set_state_released [.CameraToggleOn, .CaptureRequested] = some s ∧
      s.app_state = .OCR_RUNNING ∧ s.timers = [1500] ∧ s.lbl_phid = none ∧
      s.bar_conf.value = 0 ∧ s.lbl_conf_pct.text = "0%") ∧
    run_from_init lv_btn_set_state_released
      [.CameraToggleOn, .CaptureRequested, .OcrCompleted] = none :=
  ⟨⟨_, rfl, by decide⟩, by decide⟩

/-- Handler logic with the three result labels present: from the state of
`ui_init` with `lbl_phid`, `lbl_dob`, `lbl_sex` pointing to labels `p`, `d`, `x`, the
events CameraToggleOn, CaptureRequested, OcrCompleted end in `OCR_DONE` with the canned
record displayed. -/
theorem ocr_sequence_with_result_labels (f : lv_obj_t → lv_state_t → lv_obj_t)
    (p d x : lv_obj_t) :
    ∃ s, run f [.CameraToggleOn, .CaptureRequested, .OcrCompleted]
        { ui_ready with lbl_phid := some p, lbl_dob := some d, lbl_sex := some x } = some s ∧
      s.app_state = .OCR_DONE ∧ s.bar_conf.value = 92 ∧ s.lbl_conf_pct.text = "92%" ∧
      s.lbl_name.text = "DELA CRUZ, JUAN P." ∧ s.chip_ocr.text = "OCR: DONE" ∧
      lv_obj_has_flag s.spinner_ocr .LV_OBJ_FLAG_HIDDEN = true ∧
      lv_obj_has_flag s.box_overlay .LV_OBJ_FLAG_HIDDEN = false ∧
      s.timers = [] := by
  simp [run, step, sw_event_cb, btn_event_cb, ocr_timer_cb, update_state_ui, ui_ready,
    ui_built, lv_obj_has_state, lv_obj_add_state, lv_obj_has_flag, lv_obj_add_flag,
    lv_obj_clear_flag, lv_label_set_text, lv_bar_set_value, lv_obj_set_style_bg_color,
    lv_timer_create, lv_timer_del]

/-! ## C4: RetakeRequested -/

/-- C5: for every UI state and every clicked object other than the capture button that
carries `LV_OBJ_FLAG_USER_2` and not `LV_OBJ_FLAG_USER_1` (the Clear branch), the click
handler yields `app_state` `IDLE`, the camera-ready switch without `LV_STATE_CHECKED`,
the capture button disabled, the camera chip text "CAM: IDLE", and spinner and overlay
hidden, whatever `lv_btn_set_state` does to the switch. -/
theorem clear_returns_to_idle (f : lv_obj_t → lv_state_t → lv_obj_t) (b : lv_obj_t) (s : UI)
    (h1 : lv_obj_has_flag b .LV_OBJ_FLAG_USER_1 = false)
    (h2 : lv_obj_has_flag b .LV_OBJ_FLAG_USER_2 = true) :
    ∃ s', btn_event_cb f (.other b) s = some s' ∧
      s'.app_state = .IDLE ∧
      lv_obj_has_state s'.sw_cam_ready .LV_STATE_CHECKED = false ∧
      lv_obj_has_state s'.btn_capture .LV_STATE_DISABLED = true ∧
      s'.chip_cam.text = "CAM: IDLE" ∧
      lv_obj_has_flag s'.spinner_ocr .LV_OBJ_FLAG_HIDDEN = true ∧
      lv_obj_has_flag s'.box_overlay .LV_OBJ_FLAG_HIDDEN = true := by
  simp [btn_event_cb, h1, h2, update_state_ui]
  simp [lv_obj_has_state, lv_obj_clear_state, lv_obj_add_state, lv_label_set_text,
    lv_obj_set_style_bg_color, lv_obj_has_flag, lv_obj_add_flag]

/-- C5, witness: the Clear button clicked in an `OCR_DONE` state showing the record. -/
theorem clear_returns_to_idle_witness :
    lv_obj_has_flag btn_clear .LV_OBJ_FLAG_USER_1 = false ∧
    lv_obj_has_flag btn_clear .LV_OBJ_FLAG_USER_2 = true ∧
    ocr_done_record_shown.app_state = .OCR_DONE ∧
    lv_obj_has_state ocr_done_record_shown.sw_cam_ready .LV_STATE_CHECKED = true ∧
    ∃ s', btn_event_cb lv_btn_set_state_released (.other btn_clear) ocr_done_record_shown
        = some s' ∧
      s'.app_state = .IDLE ∧
      lv_obj_has_state s'.sw_cam_ready .LV_STATE_CHECKED = false ∧
      lv_obj_has_state s'.btn_capture .LV_STATE_DISABLED = true ∧
      s'.chip_cam.text = "CAM: IDLE" ∧
      lv_obj_has_flag s'.spinner_ocr .LV_OBJ_FLAG_HIDDEN = true ∧
      lv_obj_has_flag s'.box_overlay .LV_OBJ_FLAG_HIDDEN = true :=
  ⟨rfl, rfl, rfl, rfl,
    clear_returns_to_idle lv_btn_set_state_released btn_clear ocr_done_record_shown rfl rfl⟩

/-! ## C6: navigation -/

theorem nav_event_cb_current (t : screen_ref) (s : UI) :
    (nav_event_cb t s).current_screen = some t := by
  simp [nav_event_cb]

theorem nav_event_cb_one_panel (t : screen_ref) (s : UI) (h : one_panel_shown s)
    (hc : s.current_screen ≠ none) : one_panel_shown (nav_event_cb t s) := by
  unfold one_panel_shown at *
  have h1 := h .scr_scan
  have h2 := h .scr_fields
  have h3 := h .scr_settings
  cases hcur : s.current_screen with
  | none => exact absurd hcur hc
  | some c =>
    rw [hcur] at h1 h2 h3
    intro r
    cases c <;> cases t <;> cases r <;>
      simp_all [nav_event_cb, set_screen_obj, screen_obj, lv_obj_has_flag, lv_obj_add_flag,
        lv_obj_clear_flag]

theorem navigate_one_panel (ts : List screen_ref) :
    ∀ (s : UI) (c : screen_ref), one_panel_shown s → s.current_screen = some c →
      one_panel_shown (navigate ts s) ∧
      (navigate ts s).current_screen = some (ts.getLast?.getD c) := by
  induction ts with
  | nil =>
    intro s c h hc
    simp [navigate, h, hc]
  | cons t ts ih =>
    intro s c h hc
    have hn := nav_event_cb_one_panel t s h (by simp [hc])
    have := ih (nav_event_cb t s) t hn (nav_event_cb_current t s)
    simp only [navigate]
    refine ⟨this.1, ?_⟩
    rw [this.2]
    cases ts <;> simp [List.getLast?]

/-- C6: after every finite sequence of navigation clicks from the state left by
`ui_init`, exactly one of the three panels is not hidden, a panel is not hidden exactly
when it is the one recorded in `current_screen`, and `current_screen` is the target of
the last click (Scan for the empty sequence). -/
theorem navigation_one_panel_shown (ts : List screen_ref) :
    ∃ s, ui_init.map (navigate ts) = some s ∧
      s.current_screen = some (ts.getLast?.getD .scr_scan) ∧
      (∃! r : screen_ref, lv_obj_has_flag (screen_obj s r) .LV_OBJ_FLAG_HIDDEN = false) ∧
      ∀ r : screen_ref,
        lv_obj_has_flag (screen_obj s r) .LV_OBJ_FLAG_HIDDEN = false ↔
          s.current_screen = some r := by
  have h0 : one_panel_shown ui_ready := by
    intro r
    cases r <;> decide
  have := navigate_one_panel ts ui_ready .scr_scan h0 rfl
  refine ⟨navigate ts ui_ready, by simp [ui_init_eq], this.2, ?_, this.1⟩
  refine ⟨ts.getLast?.getD .scr_scan, (this.1 _).2 this.2, ?_⟩
  intro r hr
  have hr2 := (this.1 r).1 hr
  rw [this.2] at hr2
  exact (Option.some.inj hr2).symm

/-! ## C7: ClearRequested and the displayed record -/

/-- In every state reached from the state left by `ui_init` the name label, the
confidence bar and the confidence label are as `ui_init` made them ("-", 0, "0%"): the
two writers of these widgets, the render of `OCR_DONE` and the Retake branch, do not
return while `lbl_phid` is null. -/
theorem record_widgets_after_init (f : lv_obj_t → lv_state_t → lv_obj_t) (es : List Event)
    (s : UI) (h : run_from_init f es = some s) :
    s.lbl_name.text = "-" ∧ s.bar_conf.value = 0 ∧ s.lbl_conf_pct.text = "0%" := by
  unfold run_from_init at h
  rw [ui_init_eq] at h
  have hn := run_null f es ui_ready s rfl h
  rw [hn.2.1, hn.2.2.1, hn.2.2.2]
  decide

/-! ## C8: the render function applied twice -/

theorem update_state_ui_twice (s s' : UI) (h : update_state_ui s = some s') :
    update_state_ui s' = some s' := by
  cases ha : s.app_state
  case OCR_DONE =>
    cases hp : s.lbl_phid <;> cases hd : s.lbl_dob <;> cases hx : s.lbl_sex <;>
      simp [update_state_ui, ha, hp, hd, hx] at h
    subst h
    simp [update_state_ui, lv_obj_add_flag, lv_obj_clear_flag, lv_label_set_text,
      lv_bar_set_value, lv_obj_set_style_bg_color]
  all_goals
    simp [update_state_ui, ha] at h
    subst h
    simp [update_state_ui, ha, lv_obj_add_flag, lv_obj_clear_flag, lv_label_set_text,
      lv_obj_add_state, lv_obj_clear_state, lv_obj_set_style_bg_color]

theorem update_state_ui_returns (s : UI) :
    (update_state_ui s).isSome = true ↔
      (s.app_state = .OCR_DONE →
        s.lbl_phid.isSome = true ∧ s.lbl_dob.isSome = true ∧ s.lbl_sex.isSome = true) := by
  cases ha : s.app_state
  case OCR_DONE =>
    cases hp : s.lbl_phid <;> cases hd : s.lbl_dob <;> cases hx : s.lbl_sex <;>
      simp [update_state_ui, ha, hp, hd, hx]
  all_goals simp [update_state_ui, ha]

/-- C8: for `app_state` `OCR_DONE`, one of the six values, `update_state_ui` has no
result to compare: in the state reached by CameraToggleOn, CaptureRequested, where
`ocr_timer_cb` calls it with `OCR_DONE`, and in every other state reached from the state
left by `ui_init`, the render stops at the write through the null `lbl_phid` (line 119).
For the other five values the render returns; and whenever it returns, rendering the
result again changes nothing and `app_state` is as before. -/
theorem update_state_ui_ocr_done_has_no_result :
    (∃ s, run_from_init lv_btn_set_state_released [.CameraToggleOn, .CaptureRequested] = some s ∧
      update_state_ui { s with app_state := .OCR_DONE } = none) ∧
    (∀ (f : lv_obj_t → lv_state_t → lv_obj_t) (es : List Event) (s : UI),
      run_from_init f es = some s → update_state_ui { s with app_state := .OCR_DONE } = none) ∧
    (∀ s : UI, s.app_state ≠ .OCR_DONE → (update_state_ui s).isSome = true) ∧
    (∀ s s' : UI, update_state_ui s = some s' →
      update_state_ui s' = some s' ∧ s'.app_state = s.app_state) := by
  refine ⟨⟨_, rfl, by decide⟩, ?_, ?_, ?_⟩
  · intro f es s h
    unfold run_from_init at h
    rw [ui_init_eq] at h
    have hp := run_phid f es ui_ready s rfl h
    simp [update_state_ui, hp]
  · intro s hs
    exact (update_state_ui_returns s).2 (fun h => absurd h hs)
  · intro s s' h
    exact ⟨update_state_ui_twice s s' h, update_state_ui_app_state s s' h⟩

/-! ## C9: the completion timer outlives Clear and Retake -/

/-- C10: in every state reached from the state left by `ui_init` by a finite sequence of
the six events, `app_state` is `IDLE`, `CAMERA_READY`, `OCR_RUNNING` or `OCR_DONE`, never
`VAL_ERROR` or `CAPTURING`; but in every such state the event OcrCompleted has no
resulting state, the handle `lbl_phid` still being null. -/
theorem val_error_unreachable_ocr_completed_undefined :
    (∀ (f : lv_obj_t → lv_state_t → lv_obj_t) (es : List Event) (s : UI),
      run_from_init f es = some s →
        (s.app_state = .IDLE ∨ s.app_state = .CAMERA_READY ∨ s.app_state = .OCR_RUNNING ∨
          s.app_state = .OCR_DONE) ∧
        s.app_state ≠ .VAL_ERROR ∧ s.app_state ≠ .CAPTURING) ∧
    (∀ (f : lv_obj_t → lv_state_t → lv_obj_t) (es : List Event) (s : UI),
      run_from_init f es = some s → step f .OcrCompleted s = none) ∧
    step lv_btn_set_state_released .OcrCompleted ui_ready = none := by
  refine ⟨?_, ?_, by decide⟩
  · intro f es s h
    unfold run_from_init at h
    rw [ui_init_eq] at h
    have ha := run_assigned_state f es ui_ready s (Or.inl rfl) h
    unfold assigned_state at ha
    refine ⟨ha, ?_, ?_⟩ <;> intro hv <;> rw [hv] at ha <;> simp at ha
  · intro f es s h
    unfold run_from_init at h
    rw [ui_init_eq] at h
    exact ocr_timer_cb_null_phid s (run_phid f es ui_ready s rfl h)

end Ui
